import Mathlib

/-!
Shallow embedding of `attending`, a local documentation cache manager
(source file `src/attending/library.py`).

The filesystem is modelled as the set of existing directories together with a
log of the calls made to the download collaborator `write_to_file`. Paths are
lists of segments, so `home / ".attending" / name / version` becomes
`home ++ [".attending", name, version]`. Python exceptions become the
`Err` type and fallible operations return `Except Err`; operations with side
effects also return the updated filesystem.

Collaborator modules of the repository that are not part of the given source
(`downloader.py`, `doc.py`, `fallback.py`, `index.py`, the `pkg_resources`
registry and `importlib`) are modelled from the spec as explicit parameters or
spec-modelled definitions, each marked in its doc comment.
-/

/-- A filesystem path, as a list of segments. -/
abbrev FPath := List String

/-- One recorded invocation of the download collaborator `write_to_file`,
with the exact arguments it received. `url` is an `Option` because the
Python caller can pass `None`. -/
structure DownloadCall where
  root : FPath
  name : String
  version : String
  url : Option String
deriving Repr, DecidableEq

/-- Filesystem state: the set of directories that exist, plus the log of
download-collaborator invocations. -/
structure FS where
  dirs : List FPath
  downloads : List DownloadCall
deriving Repr, DecidableEq

/-- All nonempty prefixes of a path: the chain of directories that
`mkdir(parents=True)` ensures exist. -/
def pathPrefixes (p : FPath) : List FPath :=
  (List.range p.length).map (fun i => p.take (i + 1))

/-- Embeds `FPath.is_dir()`. Only directories are modelled, so this is
membership. -/
def FS.is_dir (fs : FS) (p : FPath) : Bool := fs.dirs.contains p

/-- Embeds `FPath.exists()`. Only directories are modelled, so this coincides
with `is_dir`. -/
def FS.path_exists (fs : FS) (p : FPath) : Bool := fs.dirs.contains p

/-- Embeds `FPath.mkdir(parents=True)`: the path and all its ancestors now
exist. -/
def FS.mkdir_parents (fs : FS) (p : FPath) : FS :=
  { fs with dirs := pathPrefixes p ++ fs.dirs }

/-- A Python module object, reduced to the attributes `library.py` inspects:
its `__name__`, and the optional `__version__` and `__doc_url__` attributes. -/
structure PyModule where
  name : String
  version_attr : Option String
  doc_url_attr : Option String
deriving Repr, DecidableEq

/-- Argument type of `get_module_version`: either a bare name string or a
module object. -/
abbrev ModuleRef := String ⊕ PyModule

/-- The `pkg_resources.working_set.by_key` registry: a partial map from
package name to installed version. External collaborator, a parameter. -/
abbrev Registry := String → Option String

/-- Embeds `hasattr(module, "__version__")` together with the attribute
value: a Python string has no `__version__` attribute, a module object may. -/
def ModuleRef.attr_version : ModuleRef → Option String
  | Sum.inl _ => none
  | Sum.inr m => m.version_attr

/-- Embeds `module if isinstance(module, str) else module.__name__`. -/
def ModuleRef.ref_name : ModuleRef → String
  | Sum.inl s => s
  | Sum.inr m => m.name

/-- The Python exceptions that the embedded code can raise. -/
inductive Err where
  | fileExists (path : FPath)
  | keyError
  | typeError (msg : String)
  | runtimeError (msg : String)
deriving Repr, DecidableEq

/-- Embeds `options_exhausted(module)`: builds (but does not raise) a
`RuntimeError`. Note the single parameter. -/
def options_exhausted (module : String) : Err :=
  Err.runtimeError ("Failed not find fallback url for " ++ module)

/-- Embeds `pkg_resources.working_set.by_key[name].version`: raises
`KeyError` when the name is not registered. -/
def by_key (reg : Registry) (name : String) : Except Err String :=
  match reg name with
  | some v => Except.ok v
  | none => Except.error Err.keyError

/-- Embeds `get_module_version(module)`: self-reported `__version__` first,
then the installed-package registry (with `KeyError` caught), then
`"latest"`. -/
def get_module_version (reg : Registry) (module : ModuleRef) : Except Err String :=
  match module.attr_version with
  | some v => Except.ok v
  | none =>
    match by_key reg module.ref_name with
    | Except.ok v => Except.ok v
    | Except.error Err.keyError => Except.ok "latest"
    | Except.error e => Except.error e

/-- Modelled from the spec: the download collaborator `write_to_file` lives in
`attending/downloader.py`, which is not among the given sources. Per the
spec's contract, given (cache-root, name, version, url) it creates/populates
`cache-root/name/version/` and does not raise when the directory was freshly
created by the caller. The model records the invocation in the download log
and ensures the destination directory exists. -/
def write_to_file (fs : FS) (root : FPath) (name version : String)
    (url : Option String) : FS :=
  let fs1 := fs.mkdir_parents (root ++ [name, version])
  { fs1 with downloads := fs1.downloads ++ [DownloadCall.mk root name version url] }

/-- Modelled from the spec: the edition handle produced by
`Module(self.location, name)[version]` (`attending/doc.py` is not among the
given sources): a handle scoped to `root/name`, version-selected. -/
structure Edition where
  root : FPath
  name : String
  version : String
deriving Repr, DecidableEq

/-- Modelled from the spec: `Edition.retire()` removes the corresponding
cache directory `root/name/version` and everything below it. -/
def Edition.retire (fs : FS) (e : Edition) : FS :=
  { fs with dirs := fs.dirs.filter (fun d => !((e.root ++ [e.name, e.version]).isPrefixOf d)) }

/-- Embeds `Library.__init__`: the cache root is `home/.attending`, created
recursively if missing. Returns the state and `self.location`. -/
def Library.init (fs : FS) (home : FPath) : FS × FPath :=
  let loc := home ++ [".attending"]
  if fs.path_exists loc then (fs, loc) else (fs.mkdir_parents loc, loc)

/-- Embeds `Library.in_collection(name, version)`. -/
def Library.in_collection (fs : FS) (loc : FPath) (name version : String) : Bool :=
  let module_dir := loc ++ [name]
  if !(fs.is_dir module_dir) then false
  else fs.is_dir (module_dir ++ [version])

/-- Embeds `Library.get_edition(name, version)`. -/
def Library.get_edition (fs : FS) (loc : FPath) (name version : String) :
    Except Err Edition :=
  if !(Library.in_collection fs loc name version) then Except.error Err.keyError
  else Except.ok (Edition.mk loc name version)

/-- Embeds `Library._add_project(name, version, url)`. -/
def Library._add_project (fs : FS) (loc : FPath) (name version : String)
    (url : Option String) : FS × Except Err Unit :=
  let destination := loc ++ [name, version]
  if fs.path_exists destination then
    (fs, Except.error (Err.fileExists destination))
  else
    let fs1 := fs.mkdir_parents destination
    (write_to_file fs1 loc name version url, Except.ok ())

/-- Embeds `Library.fetch(name, version, url)`. -/
def Library.fetch (fs : FS) (loc : FPath) (name version : String)
    (url : Option String) : FS × Except Err Edition :=
  if Library.in_collection fs loc name version then
    (fs, Library.get_edition fs loc name version)
  else
    match Library._add_project fs loc name version url with
    | (fs1, Except.error e) => (fs1, Except.error e)
    | (fs1, Except.ok _) => (fs1, Library.get_edition fs1 loc name version)

/-- Embeds `Library.retire(name, version)`: look up the edition, then retire
it. An exception from the lookup propagates with the state unchanged. -/
def Library.retire (fs : FS) (loc : FPath) (name version : String) :
    FS × Except Err Unit :=
  match Library.get_edition fs loc name version with
  | Except.error e => (fs, Except.error e)
  | Except.ok ed => (Edition.retire fs ed, Except.ok ())

/-- Embeds `fetch_via_module(module, version=None, home=...)`.
The `importlib` result is not needed here; the registry and the fallback
resolver `get_doc_url` (from `attending/fallback.py`, not among the given
sources) are explicit collaborator parameters. When the module has no
`__doc_url__`, the fallback URL — possibly `None` — is passed straight to
`write_to_file`, bypassing `Library.fetch`. -/
def fetch_via_module (reg : Registry) (get_doc_url : String → Option String)
    (fs : FS) (module : PyModule) (version : Option String) (home : FPath) :
    FS × Except Err Edition :=
  let s1 := Library.init fs home
  let fs1 := s1.1
  let loc := s1.2
  let mod_name := module.name
  match (match version with
         | some v => Except.ok v
         | none => get_module_version reg (Sum.inr module)) with
  | Except.error e => (fs1, Except.error e)
  | Except.ok v =>
    match module.doc_url_attr with
    | some u =>
      match Library.fetch fs1 loc mod_name v (some u) with
      | (fs2, Except.error e) => (fs2, Except.error e)
      | (fs2, Except.ok _) => (fs2, Library.get_edition fs2 loc mod_name v)
    | none =>
      let url := get_doc_url mod_name
      let fs2 := write_to_file fs1 loc mod_name v url
      (fs2, Library.get_edition fs2 loc mod_name v)

/-- Embeds `fetch_via_name(module, version=None, url=None, home=...)`.
`import_module` models `importlib.import_module`: `some` on success, `none`
for `ImportError`. `default_home` models the default value `FPath().home()`
of the `home` parameter, which the delegation to `fetch_via_module` falls
back to because `home` is not forwarded there. In the exhausted branch the
source raises `options_exhausted(module, version)`, but `options_exhausted`
is defined with a single parameter, so the call itself raises a `TypeError`
before any `RuntimeError` is constructed. -/
def fetch_via_name (reg : Registry) (get_doc_url : String → Option String)
    (import_module : String → Option PyModule) (default_home : FPath)
    (fs : FS) (module : String) (version url : Option String) (home : FPath) :
    FS × Except Err Edition :=
  let s1 := Library.init fs home
  let fs1 := s1.1
  let loc := s1.2
  match (match version with
         | some v => Except.ok v
         | none => get_module_version reg (Sum.inl module)) with
  | Except.error e => (fs1, Except.error e)
  | Except.ok v =>
    match url with
    | some u => Library.fetch fs1 loc module v (some u)
    | none =>
      match import_module module with
      | some python_module =>
        fetch_via_module reg get_doc_url fs1 python_module (some v) default_home
      | none =>
        match get_doc_url module with
        | some u => Library.fetch fs1 loc module v (some u)
        | none =>
          (fs1, Except.error
            (Err.typeError
              "options_exhausted() takes 1 positional argument but 2 were given"))

/-- An index is a partial map from package name to documentation URL
(`load_attending_index()` and `load_index(path)` from `attending/index.py`,
which is not among the given sources, are modelled from the spec as such
maps). -/
abbrev Index := String → Option String

/-- Python `dict.update`: entries of the second mapping win. -/
def dict_update (d1 d2 : Index) : Index :=
  fun k =>
    match d2 k with
    | some v => some v
    | none => d1 k

/-- Embeds `fetch_via_local_index(module, home=...)`. `load_attending_index` is the
baked-in index; `load_index` reads a two-column index file, `none` meaning
the file does not exist. The local index file is looked up under
`FPath().home()` (modelled by `default_home`), not under the `home`
argument. The result of the inner fetch is discarded. -/
def fetch_via_local_index (reg : Registry) (get_doc_url : String → Option String)
    (import_module : String → Option PyModule)
    (load_attending_index : Index) (load_index : FPath → Option Index)
    (default_home : FPath) (fs : FS) (module : String) (home : FPath) :
    FS × Except Err Unit :=
  let local_index_file := default_home ++ [".attending", "index.csv"]
  let index :=
    match load_index local_index_file with
    | some li => dict_update load_attending_index li
    | none => load_attending_index
  match index module with
  | some u =>
    match fetch_via_name reg get_doc_url import_module default_home fs module
        none (some u) home with
    | (fs1, Except.error e) => (fs1, Except.error e)
    | (fs1, Except.ok _) => (fs1, Except.ok ())
  | none => (fs, Except.ok ())

/-- The empty filesystem: nothing cached, no downloads performed. -/
def empty_fs : FS := { dirs := [], downloads := [] }

/-- An empty installed-package registry. -/
def no_reg : Registry := fun _ => none

/-- A fallback resolver that never finds a URL. -/
def no_url : String → Option String := fun _ => none

/-- An importer for which no package is importable. -/
def no_import : String → Option PyModule := fun _ => none

/-- A module object with no `__version__` and no `__doc_url__` attribute. -/
def ghost : PyModule := { name := "ghost", version_attr := none, doc_url_attr := none }

/-- A module object that self-declares a documentation URL. -/
def toy_module : PyModule :=
  { name := "pkg", version_attr := none, doc_url_attr := some "http://docs" }

/-- An importer for which exactly the package `pkg` is importable. -/
def toy_import : String → Option PyModule :=
  fun k => if k = "pkg" then some toy_module else none

/-- A baked-in index defining `foo`. -/
def baked_index : Index := fun k => if k = "foo" then some "http://a" else none

/-- The contents of a local override index file defining `foo` with a
different URL. -/
def local_only_index : Index := fun k => if k = "foo" then some "http://b" else none

/-- A file store in which only `home/.attending/index.csv` exists, holding
`local_only_index`. -/
def read_home_index : FPath → Option Index :=
  fun p => if p = ["home", ".attending", "index.csv"] then some local_only_index else none

/-- The filesystem after one successful `Library.fetch` of
`("demo", "1.0")` from the empty filesystem. -/
def fetched_once : FS :=
  (Library.fetch empty_fs ["home", ".attending"] "demo" "1.0"
    (some "http://example.test/docs")).1

lemma contains_true_of_mem {l : List FPath} {a : FPath} (h : a ∈ l) :
    l.contains a = true :=
  List.elem_eq_true_of_mem h

lemma mem_pathPrefixes (p : FPath) (i : Nat) (h : i < p.length) :
    p.take (i + 1) ∈ pathPrefixes p :=
  List.mem_map.mpr ⟨i, List.mem_range.mpr h, rfl⟩

lemma take_append_name (loc : FPath) (name version : String) :
    (loc ++ [name, version]).take (loc.length + 1) = loc ++ [name] := by
  have h1 : loc ++ [name, version] = (loc ++ [name]) ++ [version] := by simp
  have h2 : (loc ++ [name]).length = loc.length + 1 := by simp
  rw [h1, ← h2, List.take_left]

lemma name_dir_mem_pathPrefixes (loc : FPath) (name version : String) :
    loc ++ [name] ∈ pathPrefixes (loc ++ [name, version]) := by
  have h : loc.length < (loc ++ [name, version]).length := by simp
  have h2 := mem_pathPrefixes (loc ++ [name, version]) loc.length h
  rwa [take_append_name] at h2

lemma mem_pathPrefixes_self (p : FPath) (h : 0 < p.length) :
    p ∈ pathPrefixes p := by
  have h1 : p.length - 1 < p.length := Nat.sub_lt h Nat.one_pos
  have h2 := mem_pathPrefixes p (p.length - 1) h1
  rwa [Nat.sub_add_cancel h, List.take_length] at h2

lemma in_collection_eq (fs : FS) (loc : FPath) (name version : String) :
    Library.in_collection fs loc name version
      = (fs.dirs.contains (loc ++ [name]) && fs.dirs.contains (loc ++ [name, version])) := by
  unfold Library.in_collection FS.is_dir
  cases h : fs.dirs.contains (loc ++ [name]) with
  | false =>
    have h3 : loc ++ [name] ∉ fs.dirs := by simpa using h
    simp [h, h3, List.append_assoc]
  | true =>
    have h3 : loc ++ [name] ∈ fs.dirs := by simpa using h
    simp [h, h3, List.append_assoc]

lemma in_collection_after_write (fs : FS) (loc : FPath) (name version : String)
    (url : Option String) :
    Library.in_collection
      (write_to_file (fs.mkdir_parents (loc ++ [name, version])) loc name version url)
      loc name version = true := by
  rw [in_collection_eq]
  unfold write_to_file FS.mkdir_parents
  refine Bool.and_eq_true_iff.mpr ⟨?_, ?_⟩
  · exact contains_true_of_mem
      (List.mem_append.mpr (Or.inl (name_dir_mem_pathPrefixes loc name version)))
  · exact contains_true_of_mem
      (List.mem_append.mpr (Or.inl (mem_pathPrefixes_self _ (by simp))))

lemma fetch_of_in_collection (fs : FS) (loc : FPath) (name version : String)
    (url : Option String) (h : Library.in_collection fs loc name version = true) :
    Library.fetch fs loc name version url
      = (fs, Except.ok (Edition.mk loc name version)) := by
  unfold Library.fetch Library.get_edition
  simp [h]

/-- Claim C1. For a name whose import fails and for which the fallback
resolver returns no URL, `fetch_via_name(name, url=None)` does fail and no
cache directory for the name is created — but the exception raised is the
`TypeError` from calling the one-parameter `options_exhausted` with two
arguments, not the `ExhaustedOptions` `RuntimeError` the claim names: only
the cache root `home/.attending` exists afterwards and the download log is
empty. -/
theorem C1_exhausted_raises_typeerror :
    (fetch_via_name no_reg no_url no_import ["home"] empty_fs "pkg" none none
        ["home"]).2
      = Except.error (Err.typeError
          "options_exhausted() takes 1 positional argument but 2 were given")
  ∧ (fetch_via_name no_reg no_url no_import ["home"] empty_fs "pkg" none none
        ["home"]).1
      = { dirs := [["home"], ["home", ".attending"]], downloads := [] } :=
  ⟨rfl, rfl⟩

/-- Claim C2. After a first successful `Library.fetch (name, version, url)`,
a second call with the same arguments returns the same state — in
particular the download log is unchanged, so `write_to_file` is not invoked
again — and the same edition handle. -/
theorem C2_fetch_idempotent (fs : FS) (loc : FPath) (name version : String)
    (url : Option String) (fs1 : FS) (ed : Edition)
    (h : Library.fetch fs loc name version url = (fs1, Except.ok ed)) :
    Library.fetch fs1 loc name version url = (fs1, Except.ok ed) := by
  cases hcol : Library.in_collection fs loc name version with
  | true =>
    rw [fetch_of_in_collection fs loc name version url hcol] at h
    injection h with h1 h2
    injection h2 with h3
    subst h1
    subst h3
    exact fetch_of_in_collection fs loc name version url hcol
  | false =>
    unfold Library.fetch Library._add_project at h
    simp [hcol] at h
    cases hex : fs.path_exists (loc ++ [name, version]) with
    | true =>
      simp [hex] at h
    | false =>
      simp [hex] at h
      have hic := in_collection_after_write fs loc name version url
      have hge : Library.get_edition
          (write_to_file (fs.mkdir_parents (loc ++ [name, version])) loc name version url)
          loc name version = Except.ok (Edition.mk loc name version) := by
        unfold Library.get_edition
        simp [hic]
      rw [hge] at h
      obtain ⟨h1, h2⟩ := h
      subst h1
      injection h2 with h3
      subst h3
      exact fetch_of_in_collection _ loc name version url hic

/-- Witness for C2: a concrete first fetch of `("demo", "1.0")` from the
empty filesystem, then the second fetch returns the same state and
edition. -/
theorem C2_witness :
    Library.fetch fetched_once ["home", ".attending"] "demo" "1.0"
        (some "http://example.test/docs")
      = (fetched_once, Except.ok (Edition.mk ["home", ".attending"] "demo" "1.0")) :=
  C2_fetch_idempotent empty_fs ["home", ".attending"] "demo" "1.0"
    (some "http://example.test/docs") fetched_once
    (Edition.mk ["home", ".attending"] "demo" "1.0") rfl

/-- Claim C3. Version resolution precedence: a self-reported `__version__`
attribute is returned verbatim; otherwise a registry entry for the name is
returned; otherwise the literal string `latest`. -/
theorem C3_version_precedence (reg : Registry) (m : ModuleRef) :
    (∀ v, m.attr_version = some v → get_module_version reg m = Except.ok v)
  ∧ (m.attr_version = none → ∀ w, reg m.ref_name = some w →
      get_module_version reg m = Except.ok w)
  ∧ (m.attr_version = none → reg m.ref_name = none →
      get_module_version reg m = Except.ok "latest") := by
  unfold get_module_version by_key
  refine ⟨fun v hv => by simp [hv], fun hn w hw => by simp [hn, hw],
    fun hn hw => by simp [hn, hw]⟩

/-- Witness for C3: a module object self-reporting version 1.0 resolves to
1.0 even though the registry is empty. -/
theorem C3_witness :
    get_module_version no_reg (Sum.inr (PyModule.mk "m" (some "1.0") none))
      = Except.ok "1.0" :=
  (C3_version_precedence no_reg (Sum.inr (PyModule.mk "m" (some "1.0") none))).1 "1.0" rfl

/-- Claim C4. For a module object with no self-declared documentation URL,
when the fallback resolver returns no URL, `fetch_via_module` does not fail
hard: it passes the absent URL straight to the download collaborator,
creating a cache entry for `(ghost, latest)` whose recorded URL is `none`,
and returns an edition handle. This contradicts the claim, which requires a
hard failure and no cache entry. -/
theorem C4_writes_cache_with_absent_url :
    (fetch_via_module no_reg no_url empty_fs ghost none ["home"]).1.downloads
      = [DownloadCall.mk ["home", ".attending"] "ghost" "latest" none]
  ∧ (fetch_via_module no_reg no_url empty_fs ghost none ["home"]).2
      = Except.ok (Edition.mk ["home", ".attending"] "ghost" "latest") :=
  ⟨rfl, rfl⟩

/-- Counterexample for C5. With the supplied `home` different from the
default home, the local override file under `home` defines `foo` with URL
`http://b` while the baked-in index maps it to `http://a`: the fetch
performed uses `http://a`, and no download uses `http://b`, because the code
looks for the override file under the default home, not under `home`. -/
theorem C5_counterexample :
    (fetch_via_local_index no_reg no_url no_import baked_index read_home_index
        ["root"] empty_fs "foo" ["home"]).1.downloads
      = [DownloadCall.mk ["home", ".attending"] "foo" "latest" (some "http://a")]
  ∧ ((fetch_via_local_index no_reg no_url no_import baked_index read_home_index
        ["root"] empty_fs "foo" ["home"]).1.downloads.all
      (fun d => d.url != some "http://b")) = true :=
  ⟨rfl, rfl⟩

/-- Claim C5 as amended. The local override index file consulted is the one
under the default home directory; when it exists and defines the name, its
URL is the one handed to `fetch_via_name`, even when the baked-in index also
defines the name (local entries win over baked-in entries). -/
theorem C5_local_index_overrides (reg : Registry) (gdu : String → Option String)
    (imp : String → Option PyModule) (baked li : Index)
    (load_idx : FPath → Option Index) (default_home : FPath) (fs : FS)
    (module : String) (home : FPath) (u u2 : String)
    (h1 : load_idx (default_home ++ [".attending", "index.csv"]) = some li)
    (h2 : li module = some u) (h3 : baked module = some u2) :
    fetch_via_local_index reg gdu imp baked load_idx default_home fs module home
      = (match fetch_via_name reg gdu imp default_home fs module none (some u) home with
         | (fs1, Except.error e) => (fs1, Except.error e)
         | (fs1, Except.ok _) => (fs1, Except.ok ())) := by
  unfold fetch_via_local_index dict_update
  simp [h1, h2]

/-- Witness for the amended C5: with the default home, the local file's
`http://b` wins over the baked-in `http://a` for `foo`. -/
theorem C5_witness :
    fetch_via_local_index no_reg no_url no_import baked_index read_home_index
        ["home"] empty_fs "foo" ["home"]
      = (match fetch_via_name no_reg no_url no_import ["home"] empty_fs "foo" none
            (some "http://b") ["home"] with
         | (fs1, Except.error e) => (fs1, Except.error e)
         | (fs1, Except.ok _) => (fs1, Except.ok ())) :=
  C5_local_index_overrides no_reg no_url no_import baked_index local_only_index
    read_home_index ["home"] empty_fs "foo" ["home"] "http://b" "http://a"
    rfl rfl rfl

/-- Claim C6. Membership in the collection is decided purely by directory
existence: `in_collection` is true exactly when `root/name` and
`root/name/version` are directories, and the download log (the only other
component of the state) does not affect the result. -/
theorem C6_in_collection_pure (fs : FS) (loc : FPath) (name version : String) :
    (Library.in_collection fs loc name version = true ↔
       (loc ++ [name]) ∈ fs.dirs ∧ (loc ++ [name, version]) ∈ fs.dirs)
  ∧ (∀ dls : List DownloadCall,
       Library.in_collection { dirs := fs.dirs, downloads := dls } loc name version
         = Library.in_collection fs loc name version) := by
  constructor
  · rw [in_collection_eq]
    simp
  · intro dls
    rw [in_collection_eq, in_collection_eq]

/-- Claim C7. When the destination `root/name/version` already exists,
`_add_project` raises `FileExistsError` and changes nothing; otherwise it
succeeds, delegates exactly once to the download collaborator with
`(cache-root, name, version, url)`, and the destination directory tree
exists afterwards. -/
theorem C7_add_project_conflict_or_download (fs : FS) (loc : FPath)
    (name version : String) (url : Option String) :
    (fs.path_exists (loc ++ [name, version]) = true →
       Library._add_project fs loc name version url
         = (fs, Except.error (Err.fileExists (loc ++ [name, version]))))
  ∧ (fs.path_exists (loc ++ [name, version]) = false →
       (Library._add_project fs loc name version url).2 = Except.ok ()
     ∧ (Library._add_project fs loc name version url).1.downloads
         = fs.downloads ++ [DownloadCall.mk loc name version url]
     ∧ (loc ++ [name, version]) ∈ (Library._add_project fs loc name version url).1.dirs
     ∧ (loc ++ [name]) ∈ (Library._add_project fs loc name version url).1.dirs) := by
  constructor
  · intro h
    unfold Library._add_project
    simp [h]
  · intro h
    unfold Library._add_project write_to_file FS.mkdir_parents
    simp [h]
    refine ⟨?_, ?_⟩
    · exact Or.inl (mem_pathPrefixes_self _ (by simp))
    · exact Or.inl (name_dir_mem_pathPrefixes loc name version)

/-- Witness for C7: adding `("demo", "1.0")` to the empty filesystem
succeeds, logs exactly one download with the given arguments, and creates
the destination tree. -/
theorem C7_witness :
    (Library._add_project empty_fs ["home", ".attending"] "demo" "1.0"
        (some "http://example.test/docs")).2 = Except.ok ()
  ∧ (Library._add_project empty_fs ["home", ".attending"] "demo" "1.0"
        (some "http://example.test/docs")).1.downloads
      = empty_fs.downloads
        ++ [DownloadCall.mk ["home", ".attending"] "demo" "1.0"
              (some "http://example.test/docs")]
  ∧ (["home", ".attending"] ++ ["demo", "1.0"] : FPath)
      ∈ (Library._add_project empty_fs ["home", ".attending"] "demo" "1.0"
          (some "http://example.test/docs")).1.dirs
  ∧ (["home", ".attending"] ++ ["demo"] : FPath)
      ∈ (Library._add_project empty_fs ["home", ".attending"] "demo" "1.0"
          (some "http://example.test/docs")).1.dirs :=
  (C7_add_project_conflict_or_download empty_fs ["home", ".attending"] "demo" "1.0"
    (some "http://example.test/docs")).2 rfl

/-- Claim C8. For a pair not in the collection, `get_edition` raises
`KeyError`, and `retire` — which looks the edition up first — also fails
with `KeyError`, leaving the state unchanged; for a pair in the collection,
`get_edition` returns the edition handle. -/
theorem C8_get_edition_not_found (fs : FS) (loc : FPath) (name version : String) :
    (Library.in_collection fs loc name version = false →
       Library.get_edition fs loc name version = Except.error Err.keyError
     ∧ Library.retire fs loc name version = (fs, Except.error Err.keyError))
  ∧ (Library.in_collection fs loc name version = true →
       Library.get_edition fs loc name version
         = Except.ok (Edition.mk loc name version)) := by
  constructor
  · intro h
    have hg : Library.get_edition fs loc name version = Except.error Err.keyError := by
      unfold Library.get_edition
      simp [h]
    refine ⟨hg, ?_⟩
    unfold Library.retire
    rw [hg]
  · intro h
    unfold Library.get_edition
    simp [h]

/-- Witness for C8: on the empty filesystem, `get_edition` and `retire` for
`("demo", "1.0")` both fail with `KeyError`. -/
theorem C8_witness :
    Library.get_edition empty_fs ["home", ".attending"] "demo" "1.0"
      = Except.error Err.keyError
  ∧ Library.retire empty_fs ["home", ".attending"] "demo" "1.0"
      = (empty_fs, Except.error Err.keyError) :=
  (C8_get_edition_not_found empty_fs ["home", ".attending"] "demo" "1.0").1 rfl

/-- Claim C9. Version resolution never raises: for every registry and every
input (string or module object) it returns a string, which is the
self-reported version, the registry version, or `latest`. -/
theorem C9_version_total (reg : Registry) (m : ModuleRef) :
    ∃ s, get_module_version reg m = Except.ok s
      ∧ (m.attr_version = some s ∨ reg m.ref_name = some s ∨ s = "latest") := by
  unfold get_module_version by_key
  cases hv : m.attr_version with
  | some v => exact ⟨v, by simp [hv], Or.inl rfl⟩
  | none =>
    cases hr : reg m.ref_name with
    | some w => exact ⟨w, by simp [hv, hr], Or.inr (Or.inl rfl)⟩
    | none => exact ⟨"latest", by simp [hv, hr], Or.inr (Or.inr rfl)⟩

/-- Claim C10. When the named package is importable, `fetch_via_name`
delegates to `fetch_via_module` without forwarding the caller-supplied
`home`: the delegated call runs against the default home directory (the
state it receives is the one after the caller's own `Library(home)`
initialisation). -/
theorem C10_home_not_forwarded (reg : Registry) (gdu : String → Option String)
    (imp : String → Option PyModule) (default_home : FPath) (fs : FS)
    (module : String) (v : String) (home : FPath) (pm : PyModule)
    (h : imp module = some pm) :
    fetch_via_name reg gdu imp default_home fs module (some v) none home
      = fetch_via_module reg gdu (Library.init fs home).1 pm (some v) default_home := by
  unfold fetch_via_name
  simp [h]

/-- Witness for C10: with `pkg` importable, fetching by name with home
`home` equals fetching via the module object with the default home
`root`. -/
theorem C10_witness :
    fetch_via_name no_reg no_url toy_import ["root"] empty_fs "pkg" (some "1.0")
        none ["home"]
      = fetch_via_module no_reg no_url (Library.init empty_fs ["home"]).1 toy_module
          (some "1.0") ["root"] :=
  C10_home_not_forwarded no_reg no_url toy_import ["root"] empty_fs "pkg" "1.0"
    ["home"] toy_module rfl
